import Mathlib

/-!
Shallow embedding of `nova/virt/firewall.py` (class `IptablesFirewallDriver`).

External collaborators are modelled as parameters or pre-fetched data:
* `netutils.get_ip_version` is passed in as a function `String → Nat`;
* the virtapi security-group queries are folded into the
  `security_groups : List (List SGRule)` argument of `instance_rules`
  (one list of rules per security group, in store order);
* `nw_api.get_instance_nw_info(...).fixed_ips()` for a grantee-group member
  is folded into the member data (`GranteeGroup.instances` holds each
  member's fixed-ip list as returned by the collaborator);
* the iptables manager sink is modelled by the trace of operations
  (`SinkOp`) a driver method issues to it, in order.

Python falsiness of optional strings (`if rule["cidr"]:` is false for both
`None` and `""`) is modelled by `truthy : Option String → Bool`.
-/

namespace Nova.Firewall

/-- Configuration flags read by the driver (`CONF.use_ipv6`,
`CONF.allow_same_net_traffic`). -/
structure Config where
  use_ipv6 : Bool
  allow_same_net_traffic : Bool
deriving DecidableEq, Repr

/-- Python truthiness of an optional string: `None` and `""` are falsy. -/
def truthy : Option String → Bool
  | none => false
  | some s => s ≠ ""

/-- One fixed ip of a grantee-group member, as produced by
`nw_info.fixed_ips()`: fields `address` and `version`. -/
structure FixedIp where
  address : String
  version : Nat
deriving DecidableEq, Repr

/-- `rule["grantee_group"]`: only its `instances` list is consulted; each
member is represented by its fixed-ip list (the result of the external
`get_instance_nw_info` lookup for that member). -/
structure GranteeGroup where
  instances : List (List FixedIp)
deriving DecidableEq, Repr

/-- A security-group rule row as consumed by `instance_rules`. -/
structure SGRule where
  protocol : Option String
  from_port : Int
  to_port : Int
  cidr : Option String
  grantee_group : Option GranteeGroup
deriving DecidableEq, Repr

/-- A provider firewall rule row as consumed by `_provider_rules`
(fields are accessed without truthiness checks there). -/
structure ProviderRule where
  protocol : String
  from_port : Int
  to_port : Int
  cidr : String
deriving DecidableEq, Repr

/-- The `network` half of a legacy network-info pair: subnet data. -/
structure NetworkRef where
  cidr : String
  cidr_v6 : String
deriving DecidableEq, Repr

/-- The `mapping` half of a legacy network-info pair. `ips` and `ip6s`
are the address strings (`ip["ip"]`); `dhcp_server` is optional and
checked for truthiness; `gateway_v6` is formatted unconditionally. -/
structure NetworkMapping where
  ips : List String
  ip6s : List String
  dhcp_server : Option String
  gateway_v6 : String
deriving DecidableEq, Repr

/-- Legacy network info: an ordered list of (network, mapping) pairs. -/
abbrev NetworkInfo := List (NetworkRef × NetworkMapping)

/-- `_build_icmp_rule(rule, version)`. -/
def build_icmp_rule (rule : SGRule) (version : Nat) : List String :=
  let icmp_type := rule.from_port
  let icmp_code := rule.to_port
  if icmp_type = -1 then
    []
  else
    let icmp_type_arg :=
      toString icmp_type ++ (if icmp_code = -1 then "" else "/" ++ toString icmp_code)
    if version = 4 then
      ["-m", "icmp", "--icmp-type", icmp_type_arg]
    else if version = 6 then
      ["-m", "icmp6", "--icmpv6-type", icmp_type_arg]
    else
      []

/-- `_build_tcp_udp_rule(rule, version)` (the version argument is unused
in the source as well). -/
def build_tcp_udp_rule (rule : SGRule) (_version : Nat) : List String :=
  if rule.from_port = rule.to_port then
    ["--dport", toString rule.from_port]
  else
    ["-m", "multiport", "--dports",
      toString rule.from_port ++ ":" ++ toString rule.to_port]

/-- `_do_basic_rules`: the three prelude fragments appended to both the
IPv4 and the IPv6 list. -/
def do_basic_rules : List String × List String :=
  (["-m state --state INVALID -j DROP",
    "-m state --state ESTABLISHED,RELATED -j ACCEPT",
    "-j $provider"],
   ["-m state --state INVALID -j DROP",
    "-m state --state ESTABLISHED,RELATED -j ACCEPT",
    "-j $provider"])

/-- `_do_dhcp_rules`: one IPv4 accept per truthy dhcp server. -/
def do_dhcp_rules (network_info : NetworkInfo) : List String :=
  (network_info.map (fun p => p.2.dhcp_server)).filterMap (fun dhcp_server =>
    match dhcp_server with
    | some s => if s ≠ "" then
        some ("-s " ++ s ++ " -p udp --sport 67 --dport 68 -j ACCEPT")
      else none
    | none => none)

/-- `_do_project_network_rules`: same-network accepts; the v6 half is
guarded by `CONF.use_ipv6`. -/
def do_project_network_rules (cfg : Config) (network_info : NetworkInfo) :
    List String × List String :=
  (network_info.map (fun p => "-s " ++ p.1.cidr ++ " -j ACCEPT"),
   if cfg.use_ipv6 then
     network_info.map (fun p => "-s " ++ p.1.cidr_v6 ++ " -j ACCEPT")
   else [])

/-- `_do_ra_rules`: router-advertisement accepts from each v6 gateway. -/
def do_ra_rules (network_info : NetworkInfo) : List String :=
  network_info.map (fun p => "-s " ++ p.2.gateway_v6 ++ "/128 -p icmpv6 -j ACCEPT")

/-- Python `str.lower()` restricted to the ascii protocol names the driver
compares against (maps each character through `Char.toLower`). -/
def strLower (s : String) : String := ⟨s.data.map Char.toLower⟩

/-- The `version` local of the per-rule loop in `instance_rules`:
4 when the rule has no truthy cidr, else `netutils.get_ip_version(cidr)`. -/
def rule_version (getIpVersion : String → Nat) (rule : SGRule) : Nat :=
  if truthy rule.cidr then getIpVersion (rule.cidr.getD "") else 4

/-- The `protocol` local of the per-rule loop in `instance_rules`:
lower-cased when truthy, then rewritten to `icmpv6` for version 6. -/
def rule_protocol (rule : SGRule) (version : Nat) : Option String :=
  let protocol := rule.protocol
  let protocol := if truthy protocol then rule.protocol.map strLower else protocol
  if version = 6 ∧ protocol = some "icmp" then some "icmpv6" else protocol

/-- The `args` local of the per-rule loop in `instance_rules`, before the
source scoping is appended: `["-j ACCEPT"]`, then `-p` when the protocol is
truthy, then the tcp/udp or icmp sub-fragment. -/
def rule_args (getIpVersion : String → Nat) (rule : SGRule) : List String :=
  let version := rule_version getIpVersion rule
  let protocol := rule_protocol rule version
  let args := ["-j ACCEPT"] ++ (if truthy protocol then ["-p", protocol.getD ""] else [])
  args ++
    (if protocol = some "udp" ∨ protocol = some "tcp" then
      build_tcp_udp_rule rule version
    else if protocol = some "icmp" then
      build_icmp_rule rule version
    else [])

/-- The grantee-group expansion of the per-rule loop: for each member, one
joined fragment per fixed ip whose version matches, in member order. -/
def group_member_fragments (args : List String) (version : Nat)
    (g : GranteeGroup) : List String :=
  g.instances.flatMap (fun member =>
    ((member.filter (fun ip => ip.version = version)).map (fun ip => ip.address)).map
      (fun ip => String.intercalate " " (args ++ ["-s " ++ ip])))

/-- The fragments one security-group rule contributes to the IPv4 and IPv6
lists in `instance_rules`: cidr-scoped when the cidr is truthy, else one
fragment per matching grantee-group member address; the pair side is chosen
by `version == 4`. -/
def rule_fragments (getIpVersion : String → Nat) (rule : SGRule) :
    List String × List String :=
  let version := rule_version getIpVersion rule
  let args := rule_args getIpVersion rule
  let frags :=
    if truthy rule.cidr then
      [String.intercalate " " (args ++ ["-s", rule.cidr.getD ""])]
    else
      match rule.grantee_group with
      | some g => group_member_fragments args version g
      | none => []
  if version = 4 then (frags, []) else ([], frags)

/-- `instance_rules(instance, network_info)`: the compiled IPv4 and IPv6
rule lists. `security_groups` holds, per security group of the instance,
the rule rows returned by the virtapi, in store order. -/
def instance_rules (cfg : Config) (getIpVersion : String → Nat)
    (security_groups : List (List SGRule)) (network_info : NetworkInfo) :
    List String × List String :=
  let basic := do_basic_rules
  let dhcp := do_dhcp_rules network_info
  let pn :=
    if cfg.allow_same_net_traffic then do_project_network_rules cfg network_info
    else ([], [])
  let ra := if cfg.use_ipv6 then do_ra_rules network_info else []
  let all_rules := security_groups.flatMap (fun rules => rules)
  let sg_v4 := all_rules.flatMap (fun r => (rule_fragments getIpVersion r).1)
  let sg_v6 := all_rules.flatMap (fun r => (rule_fragments getIpVersion r).2)
  (basic.1 ++ dhcp ++ pn.1 ++ sg_v4 ++ ["-j $sg-fallback"],
   basic.2 ++ pn.2 ++ ra ++ sg_v6 ++ ["-j $sg-fallback"])

/-- The `args` list built for one provider rule in `_provider_rules`,
including the trailing `-j DROP`. -/
def provider_rule_args (getIpVersion : String → Nat) (rule : ProviderRule) :
    List String :=
  let version := getIpVersion rule.cidr
  let protocol := if version = 6 ∧ rule.protocol = "icmp" then "icmpv6" else rule.protocol
  let args := ["-p", protocol, "-s", rule.cidr]
  let args := args ++
    (if protocol = "udp" ∨ protocol = "tcp" then
      (if rule.from_port = rule.to_port then
        ["--dport", toString rule.from_port]
      else
        ["-m", "multiport", "--dports",
          toString rule.from_port ++ ":" ++ toString rule.to_port])
    else if protocol = "icmp" then
      (if rule.from_port = -1 then []
      else
        let icmp_type_arg :=
          toString rule.from_port ++
            (if rule.to_port = -1 then "" else "/" ++ toString rule.to_port)
        if version = 4 then ["-m", "icmp", "--icmp-type", icmp_type_arg]
        else if version = 6 then ["-m", "icmp6", "--icmpv6-type", icmp_type_arg]
        else [])
    else [])
  args ++ ["-j DROP"]

/-- `_provider_rules()`: the IPv4 and IPv6 provider DROP fragments, one per
provider rule, sorted into the two lists by `version == 4`. -/
def provider_rules (getIpVersion : String → Nat) (rules : List ProviderRule) :
    List String × List String :=
  (rules.filterMap (fun r =>
     if getIpVersion r.cidr = 4 then
       some (String.intercalate " " (provider_rule_args getIpVersion r))
     else none),
   rules.filterMap (fun r =>
     if getIpVersion r.cidr = 4 then none
     else some (String.intercalate " " (provider_rule_args getIpVersion r))))

/-- One operation issued by the driver to the iptables manager; the first
argument of the chain and rule operations is the ip version of the table. -/
inductive SinkOp where
  | add_chain (ipv : Nat) (name : String)
  | remove_chain (ipv : Nat) (name : String)
  | empty_chain (ipv : Nat) (name : String)
  | add_rule (ipv : Nat) (chain : String) (rule : String)
  | apply
deriving DecidableEq, Repr

/-- `_purge_provider_fw_rules()`: its operation trace. -/
def purge_provider_fw_rules (cfg : Config) : List SinkOp :=
  [SinkOp.empty_chain 4 "provider"] ++
    (if cfg.use_ipv6 then [SinkOp.empty_chain 6 "provider"] else [])

/-- `_build_provider_fw_rules()`: its operation trace. -/
def build_provider_fw_rules (cfg : Config) (getIpVersion : String → Nat)
    (rules : List ProviderRule) : List SinkOp :=
  ([SinkOp.add_chain 4 "provider"] ++
      (if cfg.use_ipv6 then [SinkOp.add_chain 6 "provider"] else [])) ++
    (provider_rules getIpVersion rules).1.map (SinkOp.add_rule 4 "provider") ++
    (if cfg.use_ipv6 then
      (provider_rules getIpVersion rules).2.map (SinkOp.add_rule 6 "provider")
    else [])

/-- `_do_refresh_provider_fw_rules()`: purge, then rebuild. -/
def do_refresh_provider_fw_rules (cfg : Config) (getIpVersion : String → Nat)
    (rules : List ProviderRule) : List SinkOp :=
  purge_provider_fw_rules cfg ++ build_provider_fw_rules cfg getIpVersion rules

/-- `_instance_chain_name(instance)`, with the instance given by its id. -/
def instance_chain_name (inst : Nat) : String := "inst-" ++ toString inst

/-- `remove_filters_for_instance(instance)`: its operation trace. -/
def remove_filters_for_instance (cfg : Config) (inst : Nat) : List SinkOp :=
  [SinkOp.remove_chain 4 (instance_chain_name inst)] ++
    (if cfg.use_ipv6 then [SinkOp.remove_chain 6 (instance_chain_name inst)] else [])

/-- `dict.pop(k, None)` on an association list: the removed value (if any)
and the remaining list. -/
def assocPop {α : Type} (l : List (Nat × α)) (k : Nat) :
    Option α × List (Nat × α) :=
  match l with
  | [] => (none, [])
  | (k1, v) :: rest =>
    if k1 = k then (some v, rest)
    else
      let r := assocPop rest k
      (r.1, (k1, v) :: r.2)

/-- The driver state consulted by `unfilter_instance`: the `instances` map
(id to stored instance record, the record itself represented by its id) and
the `network_infos` map. -/
structure DriverState where
  instances : List (Nat × Nat)
  network_infos : List (Nat × NetworkInfo)
deriving DecidableEq, Repr

/-- `unfilter_instance(instance, network_info)`: pops the instance id; when
it was tracked, pops its network info, removes its chains and applies; when
it was not tracked, only logs. Returns the new state and the sink trace. -/
def unfilter_instance (cfg : Config) (st : DriverState) (inst : Nat) :
    DriverState × List SinkOp :=
  let popped := assocPop st.instances inst
  match popped.1 with
  | some _ =>
    ({ instances := popped.2, network_infos := (assocPop st.network_infos inst).2 },
     remove_filters_for_instance cfg inst ++ [SinkOp.apply])
  | none => (st, [])

/-! Concrete sample data used by witnesses and counterexamples. -/

/-- A config with IPv6 disabled and same-net traffic allowed. -/
def cfgNoV6 : Config := ⟨false, true⟩

/-- A config with both flags enabled. -/
def cfgFull : Config := ⟨true, true⟩

/-- A grantee group with two members; the first member also has an IPv6
address, exercising the version filter of the expansion. -/
def sampleGroup : GranteeGroup :=
  ⟨[[⟨"10.0.0.3", 4⟩, ⟨"fe80::1", 6⟩], [⟨"10.0.0.4", 4⟩]]⟩

/-- A group-sourced tcp/22 rule (upper-case protocol, no cidr). -/
def sampleGroupRule : SGRule := ⟨some "TCP", 22, 22, none, some sampleGroup⟩

/-- A group-sourced rule with no protocol. -/
def samplePlainGroupRule : SGRule := ⟨none, -1, -1, none, some sampleGroup⟩

/-- A driver state tracking exactly instance 1. -/
def sampleState : DriverState := ⟨[(1, 1)], [(1, [])]⟩

/-! Theorems settling the claims. -/

/-- C1 counterexample: with IPv6 disabled (`use_ipv6 = false`), a
security-group rule whose cidr is an IPv6 block is still emitted into the
compiled IPv6 rule list returned by `instance_rules`, so the claim that
that list contains no security-group-derived entries is false. -/
theorem c1_counterexample_ipv6_cidr_rule_emitted :
    "-j ACCEPT -s ::/0" ∈
      (instance_rules cfgNoV6 (fun _ => 6)
        [[⟨none, -1, -1, some "::/0", none⟩]] []).2 := by
  decide

/-- C1 (amended): with IPv6 disabled, the compiled IPv6 rule list contains
no DHCP-derived, same-network-derived or router-advertisement-derived
entries: it is exactly the basic prelude, followed by the IPv6 fragments of
the security-group rules (which are still emitted), followed by the
fallback jump. -/
theorem c1_v6_rules_when_ipv6_disabled (cfg : Config)
    (getIpVersion : String → Nat) (security_groups : List (List SGRule))
    (network_info : NetworkInfo) (h : cfg.use_ipv6 = false) :
    (instance_rules cfg getIpVersion security_groups network_info).2 =
      do_basic_rules.2 ++
        (security_groups.flatMap (fun rules => rules)).flatMap
          (fun r => (rule_fragments getIpVersion r).2) ++
        ["-j $sg-fallback"] := by
  cases hA : cfg.allow_same_net_traffic <;>
    simp [instance_rules, do_project_network_rules, h, hA, do_basic_rules]

/-- C1 witness: the amended statement instantiated at a concrete config,
topology and rule set with IPv6 disabled. -/
theorem c1_witness :
    (instance_rules cfgNoV6 (fun _ => 6)
        [[⟨none, -1, -1, some "::/0", none⟩]]
        [(⟨"10.0.0.0/24", "fd00::/64"⟩,
          ⟨["10.0.0.2"], ["fd00::2"], some "10.0.0.1", "fe80::1"⟩)]).2 =
      do_basic_rules.2 ++
        ([[(⟨none, -1, -1, some "::/0", none⟩ : SGRule)]].flatMap
            (fun rules => rules)).flatMap
          (fun r => (rule_fragments (fun _ => 6) r).2) ++
        ["-j $sg-fallback"] :=
  c1_v6_rules_when_ipv6_disabled cfgNoV6 (fun _ => 6)
    [[⟨none, -1, -1, some "::/0", none⟩]]
    [(⟨"10.0.0.0/24", "fd00::/64"⟩,
      ⟨["10.0.0.2"], ["fd00::2"], some "10.0.0.1", "fe80::1"⟩)] rfl

/-- C2 (code bug evidence): for an IPv6 security-group icmp rule with
icmp_type 128, the compiled fragment names the protocol `icmpv6` but holds
no `--icmpv6-type 128` match, because the protocol is rewritten to
`icmpv6` before the `icmp` dispatch; the version-6 branch of
`build_icmp_rule`, which would emit that match, is thereby unreachable,
and the provider-rule path drops the match the same way. -/
theorem c2_icmpv6_type_match_missing :
    rule_fragments (fun _ => 6) ⟨some "icmp", 128, -1, some "::1/128", none⟩ =
      ([], ["-j ACCEPT -p icmpv6 -s ::1/128"]) ∧
    build_icmp_rule ⟨some "icmp", 128, -1, some "::1/128", none⟩ 6 =
      ["-m", "icmp6", "--icmpv6-type", "128"] ∧
    provider_rule_args (fun _ => 6) ⟨"icmp", 128, -1, "::1/128"⟩ =
      ["-p", "icmpv6", "-s", "::1/128", "-j DROP"] := by
  refine ⟨by decide, by decide, by decide⟩

/-- C3 counterexample: a tcp rule with from_port 5 greater than to_port 3
does not fail the compile step; `instance_rules` returns normally and the
IPv4 list contains a multiport fragment derived from the invalid rule. -/
theorem c3_counterexample_invalid_range_compiles :
    instance_rules cfgFull (fun _ => 4)
        [[⟨some "tcp", 5, 3, some "10.0.0.0/8", none⟩]] [] =
      (["-m state --state INVALID -j DROP",
        "-m state --state ESTABLISHED,RELATED -j ACCEPT",
        "-j $provider",
        "-j ACCEPT -p tcp -m multiport --dports 5:3 -s 10.0.0.0/8",
        "-j $sg-fallback"],
       ["-m state --state INVALID -j DROP",
        "-m state --state ESTABLISHED,RELATED -j ACCEPT",
        "-j $provider",
        "-j $sg-fallback"]) := by
  decide

/-- C3 (amended): the compile step performs no validation: a rule whose
port range has from_port greater than to_port compiles to a multiport
range match `from:to`, and a rule with neither a truthy cidr nor a grantee
group contributes no fragment at all; no error is raised in either case. -/
theorem c3_no_validation_emits_range_or_skips :
    (∀ (rule : SGRule) (version : Nat), rule.to_port < rule.from_port →
      build_tcp_udp_rule rule version =
        ["-m", "multiport", "--dports",
          toString rule.from_port ++ ":" ++ toString rule.to_port]) ∧
    (∀ (getIpVersion : String → Nat) (rule : SGRule),
      truthy rule.cidr = false → rule.grantee_group = none →
      rule_fragments getIpVersion rule = ([], [])) := by
  constructor
  · intro rule version h
    have hne : ¬ rule.from_port = rule.to_port := by omega
    simp [build_tcp_udp_rule, hne]
  · intro getIpVersion rule hc hg
    simp [rule_fragments, rule_version, hc, hg]

/-- C3 witness: the amended statement applied to a concrete inverted port
range and to a concrete sourceless protocol-less rule. -/
theorem c3_witness :
    build_tcp_udp_rule ⟨some "tcp", 5, 3, some "10.0.0.0/8", none⟩ 4 =
      ["-m", "multiport", "--dports",
        toString (5 : Int) ++ ":" ++ toString (3 : Int)] ∧
    rule_fragments (fun _ => 4) ⟨none, -1, -1, none, none⟩ = ([], []) :=
  ⟨c3_no_validation_emits_range_or_skips.1
      ⟨some "tcp", 5, 3, some "10.0.0.0/8", none⟩ 4 (by decide),
   c3_no_validation_emits_range_or_skips.2 (fun _ => 4)
      ⟨none, -1, -1, none, none⟩ rfl rfl⟩

/-- C4: for every config, topology and rule set, both compiled lists start
with the fixed prelude (INVALID drop, ESTABLISHED/RELATED accept, provider
jump) in that order, and both end with the fallback jump as their last
element. -/
theorem c4_prelude_first_fallback_last (cfg : Config)
    (getIpVersion : String → Nat) (security_groups : List (List SGRule))
    (network_info : NetworkInfo) :
    ((instance_rules cfg getIpVersion security_groups network_info).1.take 3 =
      ["-m state --state INVALID -j DROP",
       "-m state --state ESTABLISHED,RELATED -j ACCEPT", "-j $provider"]) ∧
    ((instance_rules cfg getIpVersion security_groups network_info).2.take 3 =
      ["-m state --state INVALID -j DROP",
       "-m state --state ESTABLISHED,RELATED -j ACCEPT", "-j $provider"]) ∧
    ((instance_rules cfg getIpVersion security_groups network_info).1.getLast? =
      some "-j $sg-fallback") ∧
    ((instance_rules cfg getIpVersion security_groups network_info).2.getLast? =
      some "-j $sg-fallback") := by
  refine ⟨?_, ?_, ?_, ?_⟩
  · simp [instance_rules, do_basic_rules, List.take]
  · simp [instance_rules, do_basic_rules, List.take]
  · simp only [instance_rules, do_basic_rules]
    exact List.getLast?_concat _
  · simp only [instance_rules, do_basic_rules]
    exact List.getLast?_concat _

/-- C5: a security-group rule sourced from a grantee group (no truthy
cidr) is expanded into one joined ACCEPT fragment per member address of
the matching version (version 4, since the rule has no cidr), in member
order, appended to the IPv4 list only; every fragment starts from the
shared `-j ACCEPT` args and is scoped by `-s` to one member address, so no
fragment embeds the group as a single cidr. -/
theorem c5_group_rule_member_expansion (getIpVersion : String → Nat)
    (rule : SGRule) (g : GranteeGroup) (hc : truthy rule.cidr = false)
    (hg : rule.grantee_group = some g) :
    rule_fragments getIpVersion rule =
      ((g.instances.flatMap (fun member =>
          (member.filter (fun ip => ip.version = 4)).map
            (fun ip => ip.address))).map
        (fun ip =>
          String.intercalate " " (rule_args getIpVersion rule ++ ["-s " ++ ip])),
       []) ∧
    (rule_args getIpVersion rule).head? = some "-j ACCEPT" := by
  constructor
  · have hv : rule_version getIpVersion rule = 4 := by simp [rule_version, hc]
    simp only [rule_fragments, hc, hg, hv]
    simp [group_member_fragments, List.map_flatMap]
  · simp [rule_args]

/-- C5 witness: the expansion instantiated at a concrete tcp/22 group rule
whose group has members 10.0.0.3 (plus an IPv6 address) and 10.0.0.4. -/
theorem c5_witness :
    rule_fragments (fun _ => 4) sampleGroupRule =
      ((sampleGroup.instances.flatMap (fun member =>
          (member.filter (fun ip => ip.version = 4)).map
            (fun ip => ip.address))).map
        (fun ip =>
          String.intercalate " "
            (rule_args (fun _ => 4) sampleGroupRule ++ ["-s " ++ ip])),
       []) ∧
    (rule_args (fun _ => 4) sampleGroupRule).head? = some "-j ACCEPT" :=
  c5_group_rule_member_expansion (fun _ => 4) sampleGroupRule sampleGroup
    (by decide) rfl

/-- C6: a provider-rule refresh issues, in order, the empty-chain
operations on the provider chain, then the add-chain operations, then one
add-rule per compiled fragment of the full current provider rule set (no
incremental add or remove), and the args of every compiled provider
fragment end in `-j DROP`, never in an ACCEPT action. -/
theorem c6_provider_refresh_purge_then_rebuild_drop (cfg : Config)
    (getIpVersion : String → Nat) (rules : List ProviderRule) :
    do_refresh_provider_fw_rules cfg getIpVersion rules =
      ([SinkOp.empty_chain 4 "provider"] ++
          (if cfg.use_ipv6 then [SinkOp.empty_chain 6 "provider"] else [])) ++
        ([SinkOp.add_chain 4 "provider"] ++
          (if cfg.use_ipv6 then [SinkOp.add_chain 6 "provider"] else [])) ++
        (provider_rules getIpVersion rules).1.map
          (SinkOp.add_rule 4 "provider") ++
        (if cfg.use_ipv6 then
          (provider_rules getIpVersion rules).2.map (SinkOp.add_rule 6 "provider")
        else []) ∧
    ∀ r : ProviderRule,
      (provider_rule_args getIpVersion r).getLast? = some "-j DROP" := by
  constructor
  · simp [do_refresh_provider_fw_rules, purge_provider_fw_rules,
      build_provider_fw_rules]
  · intro r
    exact List.getLast?_concat _

/-- C7: unfiltering an instance whose id is not tracked issues no sink
operation and leaves the driver state unchanged, while unfiltering a
tracked instance removes its chain (per enabled ip version), applies, and
drops the instance from both the instances and the network-info maps. -/
theorem c7_unfilter_untracked_noop_tracked_removes (cfg : Config)
    (st : DriverState) (inst : Nat) :
    ((assocPop st.instances inst).1 = none →
      unfilter_instance cfg st inst = (st, [])) ∧
    (∀ v, (assocPop st.instances inst).1 = some v →
      unfilter_instance cfg st inst =
        ({ instances := (assocPop st.instances inst).2,
           network_infos := (assocPop st.network_infos inst).2 },
         remove_filters_for_instance cfg inst ++ [SinkOp.apply])) := by
  constructor
  · intro h; simp [unfilter_instance, h]
  · intro v h; simp [unfilter_instance, h]

/-- C7 witness: both branches at a concrete state that tracks exactly
instance 1: instance 2 is a silent no-op, instance 1 is removed. -/
theorem c7_witness :
    unfilter_instance cfgFull sampleState 2 = (sampleState, []) ∧
    unfilter_instance cfgFull sampleState 1 =
      ({ instances := (assocPop sampleState.instances 1).2,
         network_infos := (assocPop sampleState.network_infos 1).2 },
       remove_filters_for_instance cfgFull 1 ++ [SinkOp.apply]) :=
  ⟨(c7_unfilter_untracked_noop_tracked_removes cfgFull sampleState 2).1 rfl,
   (c7_unfilter_untracked_noop_tracked_removes cfgFull sampleState 1).2 1 rfl⟩

/-- C8: for a version-4 icmp rule, icmp_type -1 yields no type or code
match; a non-negative icmp_type with icmp_code -1 yields a type-only
match; non-negative type and code yield a combined `type/code` match. -/
theorem c8_icmp_v4_type_code_cases (rule : SGRule) :
    (rule.from_port = -1 → build_icmp_rule rule 4 = []) ∧
    (0 ≤ rule.from_port → rule.to_port = -1 →
      build_icmp_rule rule 4 =
        ["-m", "icmp", "--icmp-type", toString rule.from_port]) ∧
    (0 ≤ rule.from_port → 0 ≤ rule.to_port →
      build_icmp_rule rule 4 =
        ["-m", "icmp", "--icmp-type",
          toString rule.from_port ++ "/" ++ toString rule.to_port]) := by
  refine ⟨fun h => by simp [build_icmp_rule, h], fun h1 h2 => ?_, fun h1 h2 => ?_⟩
  · have hf : ¬ rule.from_port = -1 := by omega
    simp [build_icmp_rule, hf, h2]
  · have hf : ¬ rule.from_port = -1 := by omega
    have ht : ¬ rule.to_port = -1 := by omega
    simp [build_icmp_rule, hf, ht, String.append_assoc]

/-- C8 witness: the three cases at concrete icmp rules (wildcard, type 8
only, type 8 code 0). -/
theorem c8_witness :
    build_icmp_rule ⟨some "icmp", -1, -1, some "0.0.0.0/0", none⟩ 4 = [] ∧
    build_icmp_rule ⟨some "icmp", 8, -1, some "0.0.0.0/0", none⟩ 4 =
      ["-m", "icmp", "--icmp-type", toString (8 : Int)] ∧
    build_icmp_rule ⟨some "icmp", 8, 0, some "0.0.0.0/0", none⟩ 4 =
      ["-m", "icmp", "--icmp-type", toString (8 : Int) ++ "/" ++ toString (0 : Int)] :=
  ⟨(c8_icmp_v4_type_code_cases ⟨some "icmp", -1, -1, some "0.0.0.0/0", none⟩).1 rfl,
   (c8_icmp_v4_type_code_cases ⟨some "icmp", 8, -1, some "0.0.0.0/0", none⟩).2.1
      (by decide) rfl,
   (c8_icmp_v4_type_code_cases ⟨some "icmp", 8, 0, some "0.0.0.0/0", none⟩).2.2
      (by decide) (by decide)⟩

/-- C10: a security-group rule with no truthy cidr is compiled at version
4: it contributes nothing to the IPv6 list, and when it has a grantee
group its fragments are the expansion over the version-4 member addresses
only. -/
theorem c10_group_sourced_rules_fixed_v4 (getIpVersion : String → Nat)
    (rule : SGRule) (hc : truthy rule.cidr = false) :
    rule_version getIpVersion rule = 4 ∧
    (rule_fragments getIpVersion rule).2 = [] ∧
    ∀ g, rule.grantee_group = some g →
      (rule_fragments getIpVersion rule).1 =
        group_member_fragments (rule_args getIpVersion rule) 4 g := by
  have hv : rule_version getIpVersion rule = 4 := by simp [rule_version, hc]
  refine ⟨hv, ?_, ?_⟩
  · simp only [rule_fragments, hv]; simp
  · intro g hg
    simp only [rule_fragments, hc, hg, hv]
    simp

/-- C10 witness: a protocol-less group rule over a group whose first
member also holds an IPv6 address; an IPv6-biased version oracle shows the
version is still fixed to 4 and the IPv6 side stays empty. -/
theorem c10_witness :
    rule_version (fun _ => 6) samplePlainGroupRule = 4 ∧
    (rule_fragments (fun _ => 6) samplePlainGroupRule).2 = [] ∧
    ∀ g, samplePlainGroupRule.grantee_group = some g →
      (rule_fragments (fun _ => 6) samplePlainGroupRule).1 =
        group_member_fragments (rule_args (fun _ => 6) samplePlainGroupRule) 4 g :=
  c10_group_sourced_rules_fixed_v4 (fun _ => 6) samplePlainGroupRule (by decide)

end Nova.Firewall
